import Mathlib

/-!
# FoodLink recipe recommendation service: a verification development

Shallow embedding of `src/main.py` of the FoodLink_RecipeGeneration
repository.  Python exceptions are modelled with `Except String`: a value
`Except.error msg` stands for a raised exception whose `str(e)` is `msg`.
The two external collaborators (the chromadb vector store and the Gemini
generation model) are passed in as function parameters, so theorems
quantify over every possible behaviour of these services.
-/

namespace FoodLink

/-- A metadata mapping of a retrieved record (a Python dict); values are the
strings that f-string interpolation would produce. -/
abbrev Meta := List (String × String)

/-- Python dict lookup `meta.get(key, dflt)`, on the association-list model. -/
def metaGet (m : Meta) (key dflt : String) : String :=
  match m.find? (fun p => p.fst == key) with
  | some p => p.snd
  | none => dflt

/-- The result of `collection.query(...)`: parallel outer lists, one inner
list per query text (`main.py` line 80-84). -/
structure QueryResult where
  documents : List (List String)
  metadatas : List (List Meta)

/-- The `recipes_for_gemini` dict built in the handler (`main.py` 91-94). -/
structure RecipesData where
  documents : List String
  metadatas : List Meta

/-- The pydantic request model `RecipeRequest` (`main.py` 28-30), after
validation: `constraints` holds the default `"None"` when omitted. -/
structure RecipeRequest where
  ingredients : List String
  constraints : String

/-- A request body before pydantic validation: each field present or absent. -/
structure RawBody where
  ingredients : Option (List String)
  constraints : Option String

/-- Modelled from the framework semantics of the pydantic declaration
`ingredients: List[str]; constraints: Optional[str] = "None"`
(`main.py` 28-30): a missing required field is a validation error, a
missing optional field takes its declared default. -/
def parseRecipeRequest (b : RawBody) : Except String RecipeRequest :=
  match b.ingredients with
  | none => Except.error "Field required"
  | some ings => Except.ok ⟨ings, b.constraints.getD "None"⟩

/-- The JSON body of a 200 response from `POST /recommend`. -/
inductive RecBody where
  | apology (recommendation : String)
  | success (ingredients_received : List String) (constraints_applied : String)
      (recommendation : String)
deriving DecidableEq

/-- The HTTP outcome of `POST /recommend`. -/
inductive RecResponse where
  | ok200 (body : RecBody)
  | err500 (detail : String)
deriving DecidableEq

/-- The generation model: `model.generate_content(prompt).text`, which
either returns text or raises. -/
abbrev GenClient := String → Except String String

/-- The vector store: `collection.query(query_texts=[q], n_results=k,
include=incl)`, which either returns a result or raises. -/
abbrev StoreClient := String → Nat → List String → Except String QueryResult

/-- The apology returned when retrieval finds nothing (`main.py` 88). -/
def apologyMsg : String :=
  "I\x27m sorry, I couldn\x27t find any recipes that match those ingredients in my current database."

/-- One iteration of the `context_text` loop body (`main.py` 41-43). -/
def contextSection (i : Nat) (doc : String) (meta : Meta) : String :=
  "\n--- OPTION " ++ toString (i + 1) ++ ": " ++
    metaGet meta "RecipeName" "Unknown Recipe" ++ " ---\n" ++
  "Cooking Time: " ++ metaGet meta "TotalTimeInMins" "N/A" ++
    " mins | Servings: " ++ metaGet meta "Servings" "N/A" ++ "\n" ++
  "Instructions: " ++ doc ++ "\n"

/-- The `context_text` loop (`main.py` 38-43): iterates over the documents
with index `i`, reading `metadatas[i]`; a missing index raises IndexError
("list index out of range"), exactly as Python list indexing does. -/
def buildContext (metadatas : List Meta) (i : Nat) : List String → Except String String
  | [] => Except.ok ""
  | doc :: rest =>
    match metadatas[i]? with
    | none => Except.error "list index out of range"
    | some meta =>
      match buildContext metadatas (i + 1) rest with
      | Except.ok tail => Except.ok (contextSection i doc meta ++ tail)
      | Except.error e => Except.error e

/-- The prompt literal of `main.py` 46-54, with `context_text` appended. -/
def buildPrompt (available_ingredients : List String) (constraints : String)
    (context_text : String) : String :=
  "You are a friendly, expert kitchen assistant. A home cook has: " ++
    String.intercalate ", " available_ingredients ++ ".\n" ++
  "IMPORTANT DIETARY/EQUIPMENT CONSTRAINTS: " ++ constraints ++ "\n\n" ++
  "Based on their ingredients AND the constraints above, suggest the 3 best matches from the provided database. " ++
  "If a recipe uses an ingredient they are allergic to or requires equipment they don\x27t have, " ++
  "you MUST modify the steps to accommodate them or explain why a certain substitution was made.\n\n" ++
  "Don\x27t mention \x27searching a database\x27—just offer your best culinary advice based on these recipes:\n" ++
  context_text

/-- The prompt construction part of `format_with_gemini` (`main.py` 38-54):
builds `context_text` (which may raise) and then the prompt string. -/
def promptFor (available_ingredients : List String) (recipes_data : RecipesData)
    (constraints : String) : Except String String :=
  match buildContext recipes_data.metadatas 0 recipes_data.documents with
  | Except.ok ctx => Except.ok (buildPrompt available_ingredients constraints ctx)
  | Except.error e => Except.error e

/-- Function `format_with_gemini` (`main.py` 33-60): constructs the prompt (outside
any try block) and calls the model inside `try`, turning any exception of
the model call into the string `"Error generating content: " ++ str(e)`. -/
def format_with_gemini (gen : GenClient) (available_ingredients : List String)
    (recipes_data : RecipesData) (constraints : String) : Except String String :=
  match promptFor available_ingredients recipes_data constraints with
  | Except.error e => Except.error e
  | Except.ok prompt =>
    match gen prompt with
    | Except.ok text => Except.ok text
    | Except.error e => Except.ok ("Error generating content: " ++ e)

/-- The query string built by the handler (`main.py` 79). -/
def recipeQueryString (req : RecipeRequest) : String :=
  String.intercalate ", " req.ingredients

/-- The `include` argument of the store query (`main.py` 83). -/
def includeArg : List String := ["documents", "metadatas"]

/-- The body of the `try` block of `recommend_recipes` (`main.py` 79-108):
query the store, return the apology when `not results["documents"] or not
results["documents"][0]`, otherwise index `results["metadatas"][0]`
(raising IndexError when absent), call `format_with_gemini` and build the
success body.  Any `Except.error` models an exception escaping the block. -/
def recommendGo (store : StoreClient) (gen : GenClient) (req : RecipeRequest) :
    Except String RecBody :=
  match store (recipeQueryString req) 3 includeArg with
  | Except.error e => Except.error e
  | Except.ok results =>
    match results.documents with
    | [] => Except.ok (RecBody.apology apologyMsg)
    | d0 :: _ =>
      if d0.isEmpty then Except.ok (RecBody.apology apologyMsg)
      else
        match results.metadatas with
        | [] => Except.error "list index out of range"
        | m0 :: _ =>
          match format_with_gemini gen req.ingredients ⟨d0, m0⟩ req.constraints with
          | Except.error e => Except.error e
          | Except.ok final =>
            Except.ok (RecBody.success req.ingredients req.constraints final)

/-- Handler `recommend_recipes` (`main.py` 72-111): the `try`/`except` wrapper that
turns any exception into a 500 `HTTPException` whose detail prefixes the
exception message with `"Internal Server Error: "`. -/
def recommend_recipes (store : StoreClient) (gen : GenClient) (req : RecipeRequest) :
    RecResponse :=
  match recommendGo store gen req with
  | Except.ok body => RecResponse.ok200 body
  | Except.error e => RecResponse.err500 ("Internal Server Error: " ++ e)

/-- The startup error message (`main.py` 13). -/
def startupErrorMsg : String :=
  "GEMINI_API_KEY not found. Please set it in your environment or .env file."

/-- The configured application state after a successful module import. -/
structure AppConfig where
  api_key : String
  model_name : String
  collection_name : String

/-- Module initialization (`main.py` 9-19): read `GEMINI_API_KEY` from the
environment; `if not API_KEY` (absent, or present but empty, is falsy)
raise `ValueError`; otherwise configure the clients. -/
def startup (env : String → Option String) : Except String AppConfig :=
  match env "GEMINI_API_KEY" with
  | none => Except.error startupErrorMsg
  | some k =>
    if k = "" then Except.error startupErrorMsg
    else Except.ok ⟨k, "gemini-1.5-flash", "recipes"⟩

/-! Substring occurrence, and general lemmas about the context builder. -/

/-- The string `sub` occurs as a literal substring of `s`. -/
def containsStr (s sub : String) : Prop :=
  ∃ a b, s = a ++ sub ++ b

theorem containsStr_self_left (x s : String) : containsStr (x ++ s) x :=
  ⟨"", s, by simp [String.empty_append]⟩

theorem containsStr_self_right (s x : String) : containsStr (s ++ x) x :=
  ⟨s, "", by simp [String.append_empty]⟩

theorem containsStr_left (s : String) {t x : String} (h : containsStr t x) :
    containsStr (s ++ t) x := by
  obtain ⟨a, b, rfl⟩ := h
  exact ⟨s ++ a, b, by simp [String.append_assoc]⟩

theorem containsStr_right {t x : String} (h : containsStr t x) (s : String) :
    containsStr (t ++ s) x := by
  obtain ⟨a, b, rfl⟩ := h
  exact ⟨a, b ++ s, by simp [String.append_assoc]⟩

theorem containsStr_trans {s t x : String} (h₁ : containsStr s t) (h₂ : containsStr t x) :
    containsStr s x := by
  obtain ⟨a, b, rfl⟩ := h₁
  obtain ⟨c, d, rfl⟩ := h₂
  exact ⟨a ++ c, d ++ b, by simp [String.append_assoc]⟩

/-- When the metadata list is long enough, the context loop raises nothing. -/
theorem buildContext_isOk (docs : List String) (metas : List Meta) (i : Nat)
    (h : i + docs.length ≤ metas.length) :
    ∃ ctx, buildContext metas i docs = Except.ok ctx := by
  induction docs generalizing i with
  | nil => exact ⟨"", rfl⟩
  | cons doc rest ih =>
    have hi : i < metas.length := by
      simp only [List.length_cons] at h
      omega
    obtain ⟨tail, ht⟩ := ih (i + 1) (by simp only [List.length_cons] at h; omega)
    refine ⟨contextSection i doc metas[i] ++ tail, ?_⟩
    simp [buildContext, List.getElem?_eq_getElem hi, ht]

/-- Every record the context loop consumed contributes its section verbatim. -/
theorem buildContext_contains (docs : List String) (metas : List Meta) (i : Nat)
    (ctx : String) (hok : buildContext metas i docs = Except.ok ctx) :
    ∀ j d m, docs[j]? = some d → metas[i + j]? = some m →
      containsStr ctx (contextSection (i + j) d m) := by
  induction docs generalizing i ctx with
  | nil =>
    intro j d m hd _
    simp at hd
  | cons doc rest ih =>
    intro j d m hd hm
    unfold buildContext at hok
    cases hmi : metas[i]? with
    | none => rw [hmi] at hok; cases hok
    | some meta =>
      rw [hmi] at hok
      cases htail : buildContext metas (i + 1) rest with
      | error e => rw [htail] at hok; cases hok
      | ok tail =>
        rw [htail] at hok
        injection hok with hctx
        subst hctx
        cases j with
        | zero =>
          simp only [List.getElem?_cons_zero, Option.some.injEq] at hd
          subst hd
          rw [Nat.add_zero] at hm ⊢
          rw [hmi] at hm
          injection hm with hm
          subst hm
          exact containsStr_self_left _ _
        | succ j =>
          simp only [List.getElem?_cons_succ] at hd
          have hm' : metas[(i + 1) + j]? = some m := by
            rw [show i + 1 + j = i + (j + 1) by omega]
            exact hm
          have hrec := ih (i + 1) tail htail j d m hd hm'
          rw [show i + (j + 1) = i + 1 + j by omega]
          exact containsStr_left _ hrec

/-- Each section of the prompt context carries the record display name, the
cooking time, the servings, and the instruction text as substrings. -/
theorem contextSection_contains (i : Nat) (d : String) (m : Meta) :
    containsStr (contextSection i d m) (metaGet m "RecipeName" "Unknown Recipe") ∧
    containsStr (contextSection i d m) (metaGet m "TotalTimeInMins" "N/A") ∧
    containsStr (contextSection i d m) (metaGet m "Servings" "N/A") ∧
    containsStr (contextSection i d m) d := by
  refine ⟨?_, ?_, ?_, ?_⟩ <;> simp only [contextSection]
  · iterate 9 apply containsStr_right
    exact containsStr_self_right _ _
  · iterate 6 apply containsStr_right
    exact containsStr_self_right _ _
  · iterate 4 apply containsStr_right
    exact containsStr_self_right _ _
  · iterate 1 apply containsStr_right
    exact containsStr_self_right _ _

/-! Claim theorems. -/

/-- C1: whenever the store query succeeds with an empty document list
(either no inner list or an empty first inner list), `POST /recommend`
returns exactly the fixed apology object, for every behaviour of the
generation client — so generation is never consulted. -/
theorem empty_retrieval_yields_apology (store : StoreClient) (gen : GenClient)
    (req : RecipeRequest) (r : QueryResult)
    (hs : store (recipeQueryString req) 3 includeArg = Except.ok r)
    (hd : r.documents = [] ∨ ∃ rest, r.documents = [] :: rest) :
    recommend_recipes store gen req = RecResponse.ok200 (RecBody.apology apologyMsg) := by
  rcases hd with h | ⟨rest, h⟩ <;>
    simp [recommend_recipes, recommendGo, hs, h]

/-- C1 witness: a store with zero matches for "durian, unobtainium". -/
theorem empty_retrieval_yields_apology_witness :
    recommend_recipes (fun _ _ _ => Except.ok ⟨[], []⟩) (fun _ => Except.ok "text")
      ⟨["durian", "unobtainium"], "None"⟩ =
      RecResponse.ok200 (RecBody.apology apologyMsg) :=
  empty_retrieval_yields_apology (fun _ _ _ => Except.ok ⟨[], []⟩)
    (fun _ => Except.ok "text") ⟨["durian", "unobtainium"], "None"⟩ ⟨[], []⟩ rfl (Or.inl rfl)

/-- C4: when the prompt was constructed, any failure of the model call is
caught inside `format_with_gemini` and turned into the string
`"Error generating content: " ++ message` returned in place of text. -/
theorem generation_failure_swallowed (gen : GenClient) (ings : List String)
    (rd : RecipesData) (c p e : String)
    (hp : promptFor ings rd c = Except.ok p) (hg : gen p = Except.error e) :
    format_with_gemini gen ings rd c =
      Except.ok ("Error generating content: " ++ e) := by
  simp [format_with_gemini, hp, hg]

/-- C4 witness: a quota failure of the model on a concrete prompt. -/
theorem generation_failure_swallowed_witness :
    format_with_gemini (fun _ => Except.error "quota exceeded") ["egg"] ⟨[], []⟩ "None" =
      Except.ok ("Error generating content: " ++ "quota exceeded") :=
  generation_failure_swallowed (fun _ => Except.error "quota exceeded") ["egg"] ⟨[], []⟩
    "None" (buildPrompt ["egg"] "None" "") "quota exceeded" rfl rfl

/-- C5: for every store, generation client and request, the handler either
returns a 200 body, or the pipeline raised some exception `e` and the
handler returns exactly the 500 response with detail
`"Internal Server Error: " ++ e` — no exception escapes the handler. -/
theorem handler_catches_all_exceptions (store : StoreClient) (gen : GenClient)
    (req : RecipeRequest) :
    (∃ body, recommend_recipes store gen req = RecResponse.ok200 body) ∨
    (∃ e, recommendGo store gen req = Except.error e ∧
      recommend_recipes store gen req =
        RecResponse.err500 ("Internal Server Error: " ++ e)) := by
  cases h : recommendGo store gen req with
  | ok body => exact Or.inl ⟨body, by simp [recommend_recipes, h]⟩
  | error e => exact Or.inr ⟨e, by simp [h], by simp [recommend_recipes, h]⟩

/-- C6: the prompt construction is a pure function of the ingredients, the
retrieved records and the constraints: equal inputs give an identical
prompt. -/
theorem prompt_builder_deterministic (i₁ i₂ : List String) (r₁ r₂ : RecipesData)
    (c₁ c₂ : String) (hi : i₁ = i₂) (hr : r₁ = r₂) (hc : c₁ = c₂) :
    promptFor i₁ r₁ c₁ = promptFor i₂ r₂ c₂ := by
  rw [hi, hr, hc]

/-- C6 witness: determinism at a concrete input. -/
theorem prompt_builder_deterministic_witness :
    promptFor ["rice"] ⟨["Boil it"], [[("RecipeName", "Plain Rice")]]⟩ "no salt" =
      promptFor ["rice"] ⟨["Boil it"], [[("RecipeName", "Plain Rice")]]⟩ "no salt" :=
  prompt_builder_deterministic ["rice"] ["rice"]
    ⟨["Boil it"], [[("RecipeName", "Plain Rice")]]⟩
    ⟨["Boil it"], [[("RecipeName", "Plain Rice")]]⟩ "no salt" "no salt" rfl rfl rfl

/-- C8: when the credential variable is absent from the environment, module
initialization fails with the descriptive startup error and no configured
application state is ever produced. -/
theorem missing_credential_fails_startup (env : String → Option String)
    (h : env "GEMINI_API_KEY" = none) :
    startup env = Except.error startupErrorMsg ∧
      ∀ cfg, startup env ≠ Except.ok cfg := by
  unfold startup
  rw [h]
  exact ⟨rfl, fun cfg hc => by cases hc⟩

/-- C8 witness: the empty environment. -/
theorem missing_credential_fails_startup_witness :
    startup (fun _ => none) = Except.error startupErrorMsg ∧
      ∀ cfg, startup (fun _ => none) ≠ Except.ok cfg :=
  missing_credential_fails_startup (fun _ => none) rfl

/-- C10: prompt construction runs outside the try block of
`format_with_gemini`: with one metadata entry for two documents, the
IndexError of `metadatas[1]` escapes the generation function — even though
the model call itself succeeds — and the request ends as a 500 internal
error, not as an error-description recommendation. -/
theorem prompt_construction_unguarded :
    format_with_gemini (fun _ => Except.ok "ok") ["x"]
        ⟨["instr1", "instr2"], [[("RecipeName", "A")]]⟩ "None" =
      Except.error "list index out of range" ∧
    recommend_recipes
        (fun _ _ _ => Except.ok ⟨[["instr1", "instr2"]], [[[("RecipeName", "A")]]]⟩)
        (fun _ => Except.ok "ok") ⟨["x"], "None"⟩ =
      RecResponse.err500 ("Internal Server Error: " ++ "list index out of range") :=
  ⟨rfl, rfl⟩

/-- C2: for every ingredient list, record list with aligned metadata, and
constraints string, the constructed prompt contains the comma-joined
ingredients and the constraints verbatim, and, for every record in store
order, its display name (placeholder "Unknown Recipe" when absent),
cooking time and servings (placeholder "N/A" when absent), and its
instruction text, each as a literal substring. -/
theorem prompt_contains_records_and_inputs (ings docs : List String)
    (metas : List Meta) (c : String) (hlen : docs.length = metas.length) :
    ∃ p, promptFor ings ⟨docs, metas⟩ c = Except.ok p ∧
      containsStr p (String.intercalate ", " ings) ∧
      containsStr p c ∧
      ∀ (j : Nat) (d : String) (m : Meta), docs[j]? = some d → metas[j]? = some m →
        containsStr p (metaGet m "RecipeName" "Unknown Recipe") ∧
        containsStr p (metaGet m "TotalTimeInMins" "N/A") ∧
        containsStr p (metaGet m "Servings" "N/A") ∧
        containsStr p d := by
  obtain ⟨ctx, hctx⟩ := buildContext_isOk docs metas 0 (by omega)
  refine ⟨buildPrompt ings c ctx, by simp [promptFor, hctx], ?_, ?_, ?_⟩
  · simp only [buildPrompt]
    iterate 9 apply containsStr_right
    exact containsStr_self_right _ _
  · simp only [buildPrompt]
    iterate 6 apply containsStr_right
    exact containsStr_self_right _ _
  · intro j d m hd hm
    have hsec : containsStr ctx (contextSection (0 + j) d m) :=
      buildContext_contains docs metas 0 ctx hctx j d m hd (by simpa using hm)
    have hctxp : containsStr (buildPrompt ings c ctx) ctx := by
      simp only [buildPrompt]
      exact containsStr_self_right _ _
    have hsecp : containsStr (buildPrompt ings c ctx) (contextSection (0 + j) d m) :=
      containsStr_trans hctxp hsec
    obtain ⟨h1, h2, h3, h4⟩ := contextSection_contains (0 + j) d m
    exact ⟨containsStr_trans hsecp h1, containsStr_trans hsecp h2,
      containsStr_trans hsecp h3, containsStr_trans hsecp h4⟩

/-- C2 witness: the "no dairy, no oven" scenario with one retrieved record. -/
theorem prompt_contains_records_and_inputs_witness :
    ∃ p, promptFor ["chicken"] ⟨["Grill it"], [[("RecipeName", "Tandoori")]]⟩
        "no dairy, no oven" = Except.ok p ∧
      containsStr p (String.intercalate ", " ["chicken"]) ∧
      containsStr p "no dairy, no oven" ∧
      ∀ (j : Nat) (d : String) (m : Meta), ["Grill it"][j]? = some d →
        ([[("RecipeName", "Tandoori")]] : List Meta)[j]? = some m →
        containsStr p (metaGet m "RecipeName" "Unknown Recipe") ∧
        containsStr p (metaGet m "TotalTimeInMins" "N/A") ∧
        containsStr p (metaGet m "Servings" "N/A") ∧
        containsStr p d :=
  prompt_contains_records_and_inputs ["chicken"] ["Grill it"]
    [[("RecipeName", "Tandoori")]] "no dairy, no oven" rfl

/-- C3: a non-empty ingredient list whose retrieval succeeds with at least
one document (and aligned metadata, so nothing raises) yields HTTP 200
with status success, the ingredients echoed, and the constraints echoed —
the parsed constraints being the given string, or "None" when omitted. -/
theorem success_response_echoes_inputs (store : StoreClient) (gen : GenClient)
    (ings : List String) (rawC : Option String) (r : QueryResult)
    (doc0 : String) (dtail : List String) (drest : List (List String))
    (m0 : List Meta) (mrest : List (List Meta))
    (_hne : ings ≠ [])
    (hs : store (String.intercalate ", " ings) 3 includeArg = Except.ok r)
    (hdocs : r.documents = (doc0 :: dtail) :: drest)
    (hmetas : r.metadatas = m0 :: mrest)
    (hlen : dtail.length + 1 ≤ m0.length) :
    ∃ req rec, parseRecipeRequest ⟨some ings, rawC⟩ = Except.ok req ∧
      recommend_recipes store gen req =
        RecResponse.ok200 (RecBody.success ings (rawC.getD "None") rec) := by
  obtain ⟨ctx, hctx⟩ := buildContext_isOk (doc0 :: dtail) m0 0 (by simpa using hlen)
  cases hG : gen (buildPrompt ings (rawC.getD "None") ctx) with
  | ok t =>
    exact ⟨⟨ings, rawC.getD "None"⟩, t, rfl, by
      simp [recommend_recipes, recommendGo, recipeQueryString, format_with_gemini,
        promptFor, hs, hdocs, hmetas, hctx, hG]⟩
  | error e =>
    exact ⟨⟨ings, rawC.getD "None"⟩, "Error generating content: " ++ e, rfl, by
      simp [recommend_recipes, recommendGo, recipeQueryString, format_with_gemini,
        promptFor, hs, hdocs, hmetas, hctx, hG]⟩

/-- C3 witness: three ingredients, constraints omitted, one record found. -/
theorem success_response_echoes_inputs_witness :
    ∃ req rec, parseRecipeRequest ⟨some ["eggs", "flour", "milk"], none⟩ = Except.ok req ∧
      recommend_recipes
          (fun _ _ _ => Except.ok ⟨[["Mix well"]], [[[("RecipeName", "Pancakes")]]]⟩)
          (fun _ => Except.ok "Make pancakes") req =
        RecResponse.ok200 (RecBody.success ["eggs", "flour", "milk"]
          ((none : Option String).getD "None") rec) :=
  success_response_echoes_inputs
    (fun _ _ _ => Except.ok ⟨[["Mix well"]], [[[("RecipeName", "Pancakes")]]]⟩)
    (fun _ => Except.ok "Make pancakes") ["eggs", "flour", "milk"] none
    ⟨[["Mix well"]], [[[("RecipeName", "Pancakes")]]]⟩ "Mix well" [] []
    [[("RecipeName", "Pancakes")]] [] (by simp) rfl rfl rfl (by simp)

/-- C7: the handler consults the store only at the single point
(ingredients joined with ", ", k = 3, include = documents and metadatas):
stores agreeing there produce identical responses; and the query is
actually issued, since stores differing there produce different
responses. -/
theorem store_queried_once_with_joined_ingredients :
    (∀ store₁ store₂ : StoreClient, ∀ gen : GenClient, ∀ req : RecipeRequest,
      store₁ (String.intercalate ", " req.ingredients) 3 includeArg =
        store₂ (String.intercalate ", " req.ingredients) 3 includeArg →
      recommend_recipes store₁ gen req = recommend_recipes store₂ gen req) ∧
    recommend_recipes (fun _ _ _ => Except.error "store down A")
        (fun _ => Except.ok "t") ⟨["egg"], "None"⟩ ≠
      recommend_recipes (fun _ _ _ => Except.error "store down B")
        (fun _ => Except.ok "t") ⟨["egg"], "None"⟩ := by
  constructor
  · intro store₁ store₂ gen req h
    unfold recommend_recipes recommendGo recipeQueryString
    rw [h]
  · decide

/-- C7 witness: two stores that agree at the queried point give the same
response. -/
theorem store_queried_once_with_joined_ingredients_witness :
    recommend_recipes (fun _ _ _ => Except.ok ⟨[], []⟩) (fun _ => Except.ok "t")
        ⟨["egg"], "None"⟩ =
      recommend_recipes (fun _ k _ => if k = 3 then Except.ok ⟨[], []⟩
          else Except.error "never") (fun _ => Except.ok "t") ⟨["egg"], "None"⟩ :=
  store_queried_once_with_joined_ingredients.1
    (fun _ _ _ => Except.ok ⟨[], []⟩)
    (fun _ k _ => if k = 3 then Except.ok ⟨[], []⟩ else Except.error "never")
    (fun _ => Except.ok "t") ⟨["egg"], "None"⟩ rfl

/-- C9: the empty ingredient list passes request validation, produces the
empty query string, and follows the normal pipeline: an empty retrieval
yields the apology and a non-empty retrieval yields a success response —
never a validation rejection. -/
theorem empty_ingredients_not_rejected (c : Option String) :
    ∃ req, parseRecipeRequest ⟨some [], c⟩ = Except.ok req ∧
      req.ingredients = [] ∧
      recipeQueryString req = "" ∧
      (∀ gen, recommend_recipes (fun _ _ _ => Except.ok ⟨[], []⟩) gen req =
        RecResponse.ok200 (RecBody.apology apologyMsg)) ∧
      recommend_recipes
          (fun _ _ _ => Except.ok ⟨[["Stir"]], [[[("RecipeName", "Soup")]]]⟩)
          (fun _ => Except.ok "Soup it is") req =
        RecResponse.ok200 (RecBody.success [] (c.getD "None") "Soup it is") :=
  ⟨⟨[], c.getD "None"⟩, rfl, rfl, rfl, fun _ => rfl, rfl⟩

end FoodLink
